import Mathlib

/-!
# Shallow embedding of `src/voice.py` (Medical Voice Assistant)

The script is a linear Streamlit application: record audio to a fixed mp3
path, transcribe it with Whisper, summarize the transcript with Gemini, all
gated by two session flags (`recording`, `processed`).

External library calls (microphone, Whisper, Gemini, pydub export) are
modelled by oracles: each call site either returns a value or raises an
exception carrying the Python message `str(e)`.  Streamlit display calls
(`st.info`, `st.success`, `st.error`, `st.subheader`, `st.write`) are
modelled as emitted UI events; `st.spinner` context managers are pure
display wrappers and are elided.  The file system is modelled by the list
of completed `export` writes; a raising `export` call is modelled as not
having produced the output file (the conversion failed), and the moment
control reaches the export call is tracked separately (`exportAttempted`).
-/

/-- Result of one external call site: a normal value or a raised exception
with message `str(e)`. -/
inductive Outcome (α : Type) where
  | ok : α → Outcome α
  | exn : String → Outcome α
deriving DecidableEq, Repr

/-- One Streamlit display call, in the order the script issues them. -/
inductive UIEvent where
  | info : String → UIEvent
  | success : String → UIEvent
  | error : String → UIEvent
  | subheader : String → UIEvent
  | write : String → UIEvent
deriving DecidableEq, Repr

/-- One completed `AudioSegment.export(file_path, format, bitrate)` call. -/
structure FileWrite where
  path : String
  format : String
  bitrate : String
deriving DecidableEq, Repr

/-- Content of the single recording path after a list of completed writes,
starting from `init` (the file that may have existed before).  Each
completed export at path `p` overwrites the previous content there. -/
def fileAfter (p : String) (init : Option FileWrite) (ws : List FileWrite) :
    Option FileWrite :=
  ws.foldl (fun acc w => if w.path = p then some w else acc) init

/-- Oracle for the external calls made by `record_audio`, one field per call
site, in source order.  `recognizerO` is the `sr.Recognizer()` construction
on the line BEFORE the `try:` block; all the others sit inside the `try`. -/
structure RecordOracle where
  recognizerO : Outcome Unit
  micO : Outcome Unit
  adjustO : Outcome Unit
  listenO : Outcome Unit
  wavO : Outcome Unit
  fromWavO : Outcome Unit
  exportO : Outcome Unit
deriving DecidableEq, Repr

/-- Everything `record_audio` did in one invocation.  `result` is
`Outcome.ok b` when the Python function returned `b`, and `Outcome.exn e`
when an exception escaped the function.  `writes` holds the completed
export calls; `exportAttempted` is true when control reached the export
call at all. -/
structure RecordResult where
  result : Outcome Bool
  ui : List UIEvent
  writes : List FileWrite
  exportAttempted : Bool
deriving DecidableEq, Repr

/-- `record_audio(file_path, timeout=20, phrase_time_limit=30)` from
`src/voice.py` lines 42-62.  `recognizer = sr.Recognizer()` runs before the
`try:`; inside the `try`, the microphone is opened, ambient noise adjusted,
audio listened for, converted to wav, parsed by pydub and exported as mp3
at 128k; any exception in the `try` is displayed as
`Recording error: {e}` and the function returns `False`. -/
def record_audio (file_path : String) (o : RecordOracle) : RecordResult :=
  match o.recognizerO with
  | Outcome.exn e => ⟨Outcome.exn e, [], [], false⟩
  | Outcome.ok _ =>
    match o.micO with
    | Outcome.exn e =>
        ⟨Outcome.ok false, [UIEvent.error ("Recording error: " ++ e)], [], false⟩
    | Outcome.ok _ =>
      let ui1 := [UIEvent.info "Adjusting for ambient noise..."]
      match o.adjustO with
      | Outcome.exn e =>
          ⟨Outcome.ok false, ui1 ++ [UIEvent.error ("Recording error: " ++ e)], [], false⟩
      | Outcome.ok _ =>
        let ui2 := ui1 ++ [UIEvent.info "Start speaking now..."]
        match o.listenO with
        | Outcome.exn e =>
            ⟨Outcome.ok false, ui2 ++ [UIEvent.error ("Recording error: " ++ e)], [], false⟩
        | Outcome.ok _ =>
          let ui3 := ui2 ++ [UIEvent.success "Recording complete."]
          match o.wavO with
          | Outcome.exn e =>
              ⟨Outcome.ok false, ui3 ++ [UIEvent.error ("Recording error: " ++ e)], [], false⟩
          | Outcome.ok _ =>
            match o.fromWavO with
            | Outcome.exn e =>
                ⟨Outcome.ok false, ui3 ++ [UIEvent.error ("Recording error: " ++ e)], [], false⟩
            | Outcome.ok _ =>
              match o.exportO with
              | Outcome.exn e =>
                  ⟨Outcome.ok false, ui3 ++ [UIEvent.error ("Recording error: " ++ e)], [], true⟩
              | Outcome.ok _ =>
                  ⟨Outcome.ok true, ui3, [⟨file_path, "mp3", "128k"⟩], true⟩

/-- What `model.transcribe` returns on success: a dict with at least the
`language` and `text` keys. -/
structure TranscribeDict where
  language : String
  text : String
deriving DecidableEq, Repr

/-- Oracle for `transcribe_with_whisper`: the `whisper.load_model("medium")`
call and the `model.transcribe(...)` call.  Both sit inside the `try`. -/
structure WhisperOracle where
  loadO : Outcome Unit
  transcribeO : Outcome TranscribeDict
deriving DecidableEq, Repr

/-- `transcribe_with_whisper(audio_filepath)` from `src/voice.py` lines
64-76: load the model, transcribe, display the detected language, return
`result["text"]`; any exception is displayed as `Transcription error: {e}`
and the function returns `None`. -/
def transcribe_with_whisper (audio_filepath : String) (o : WhisperOracle) :
    Option String × List UIEvent :=
  match o.loadO with
  | Outcome.exn e => (none, [UIEvent.error ("Transcription error: " ++ e)])
  | Outcome.ok _ =>
    match o.transcribeO with
    | Outcome.exn e => (none, [UIEvent.error ("Transcription error: " ++ e)])
    | Outcome.ok r =>
        (some r.text, [UIEvent.info ("Detected Language: " ++ r.language)])

/-- The f-string prompt built by `analyze_transcript_with_gemini`
(`src/voice.py` lines 86-95), with `{transcript}` interpolated. -/
def gemini_prompt (transcript : String) : String :=
  "Analyze this patient transcript:\n" ++ transcript ++
    "\n\nProvide:\n1. Summary\n2. Symptoms/concerns\n3. Recommended specialist\n4. Urgency level\n5. Recommendations\n6. First-aid advice if urgent"

/-- Oracle for `analyze_transcript_with_gemini`.  `apiKey` is what
`os.getenv("GOOGLE_API_KEY")` returns (a pure lookup, never raising);
`configureO` is `genai.configure(...)`, `modelO` the `GenerativeModel`
construction, and `generateO` the `model.generate_content(prompt)` call
together with the `response.text` access, yielding the service string.
All of these sit inside the `try`. -/
structure GeminiOracle where
  apiKey : Option String
  configureO : Outcome Unit
  modelO : Outcome Unit
  generateO : Outcome String
deriving DecidableEq, Repr

/-- Everything `analyze_transcript_with_gemini` did in one invocation:
the returned value, the displayed UI events, and the prompts passed to
`model.generate_content` (the calls that were actually issued, whether or
not they then raised). -/
structure GeminiRun where
  result : Option String
  ui : List UIEvent
  sent : List String
deriving DecidableEq, Repr

/-- `analyze_transcript_with_gemini(transcript)` from `src/voice.py` lines
78-102: read the API key, configure the client, build the six-section
prompt, send it, return `response.text`; any exception is displayed as
`Analysis error: {e}` and the function returns `None`. -/
def analyze_transcript_with_gemini (transcript : String) (o : GeminiOracle) :
    GeminiRun :=
  match o.configureO with
  | Outcome.exn e => ⟨none, [UIEvent.error ("Analysis error: " ++ e)], []⟩
  | Outcome.ok _ =>
    match o.modelO with
    | Outcome.exn e => ⟨none, [UIEvent.error ("Analysis error: " ++ e)], []⟩
    | Outcome.ok _ =>
      let prompt := gemini_prompt transcript
      match o.generateO with
      | Outcome.exn e =>
          ⟨none, [UIEvent.error ("Analysis error: " ++ e)], [prompt]⟩
      | Outcome.ok r => ⟨some r, [], [prompt]⟩

/-! ## Streamlit UI layer (`src/voice.py` lines 104-127) -/

/-- The two session flags, initialised to `False`, persisted across script
re-executions (`st.session_state.recording`, `st.session_state.processed`). -/
structure SessionState where
  recording : Bool
  processed : Bool
deriving DecidableEq, Repr

/-- Session state at process start: both flags `False` (lines 29-32). -/
def initState : SessionState := ⟨false, false⟩

/-- The fixed recording path (`audio_path = "patient_recording.mp3"`). -/
def audio_path : String := "patient_recording.mp3"

/-- `disabled=` condition of the Start Recording button (line 109). -/
def startDisabled (s : SessionState) : Bool := s.recording

/-- `disabled=` condition of the Analyze Recording button (line 116). -/
def analyzeDisabled (s : SessionState) : Bool := s.recording || s.processed

/-- The Start Recording click handler (lines 109-113): set `recording`,
clear `processed`, call `record_audio(audio_path, phrase_time_limit=30)`,
and reset `recording` ONLY when it returned `True`.  When `record_audio`
raises (only possible from the pre-`try` `sr.Recognizer()` construction),
the flag assignments have already happened when the exception escapes. -/
def startHandler (s : SessionState) (o : RecordOracle) :
    SessionState × RecordResult :=
  let _ := s
  let s1 : SessionState := ⟨true, false⟩
  let r := record_audio audio_path o
  match r.result with
  | Outcome.ok true => (⟨false, false⟩, r)
  | _ => (s1, r)

/-- Oracle for one Analyze Recording click: the Whisper calls and the
Gemini calls it may make. -/
structure AnalyzeOracle where
  whisper : WhisperOracle
  gemini : GeminiOracle
deriving DecidableEq, Repr

/-- Everything one Analyze Recording click did: the resulting session
state, the UI events, whether `analyze_transcript_with_gemini` was invoked,
the prompts passed to `model.generate_content`, what was displayed under
the Transcript and Medical Analysis subheaders, and any file writes the
handler itself performed (it performs none). -/
structure AnalyzeRun where
  state : SessionState
  ui : List UIEvent
  geminiCalled : Bool
  sentPrompts : List String
  displayedTranscript : Option String
  displayedAnalysis : Option String
  fileWrites : List FileWrite
deriving DecidableEq, Repr

/-- The Analyze Recording click handler (lines 116-127):
`transcript = transcribe_with_whisper(audio_path)`; `if transcript:`
(Python truthiness: `None` and `""` are falsy) display it and run
`analysis = analyze_transcript_with_gemini(transcript)`; `if analysis:`
display it and set `processed = True`. -/
def analyzeHandler (s : SessionState) (o : AnalyzeOracle) : AnalyzeRun :=
  let tr := transcribe_with_whisper audio_path o.whisper
  match tr.1 with
  | none => ⟨s, tr.2, false, [], none, none, []⟩
  | some t =>
    if t.isEmpty then ⟨s, tr.2, false, [], none, none, []⟩
    else
      let uiT := tr.2 ++ [UIEvent.subheader "Transcript", UIEvent.write t]
      let ar := analyze_transcript_with_gemini t o.gemini
      match ar.result with
      | none => ⟨s, uiT ++ ar.ui, true, ar.sent, some t, none, []⟩
      | some a =>
        if a.isEmpty then ⟨s, uiT ++ ar.ui, true, ar.sent, some t, none, []⟩
        else
          ⟨⟨s.recording, true⟩,
            uiT ++ ar.ui ++ [UIEvent.subheader "Medical Analysis", UIEvent.write a],
            true, ar.sent, some t, some a, []⟩

/-- One user interaction: a click on one of the two buttons.  Streamlit
re-executes the script top to bottom; a handler body runs only when its
button was clicked, and a disabled button cannot be clicked. -/
inductive Event where
  | clickStart : RecordOracle → Event
  | clickAnalyze : AnalyzeOracle → Event

/-- Session-state transition relation: a click fires its handler only when
the button is enabled in the current state. -/
inductive Step : SessionState → Event → SessionState → Prop where
  | start (s : SessionState) (o : RecordOracle) (h : startDisabled s = false) :
      Step s (Event.clickStart o) (startHandler s o).1
  | analyze (s : SessionState) (o : AnalyzeOracle)
      (h : analyzeDisabled s = false) :
      Step s (Event.clickAnalyze o) (analyzeHandler s o).state

/-- Python truthiness of an optional string (`None` and `""` are falsy). -/
def truthy : Option String → Bool
  | none => false
  | some s => !s.isEmpty

/-- Both stages of one Analyze click succeed with truthy values:
transcription returns a non-empty transcript and, on that transcript,
summarization returns a non-empty analysis. -/
def bothStagesSucceed (o : AnalyzeOracle) : Bool :=
  match (transcribe_with_whisper audio_path o.whisper).1 with
  | none => false
  | some t =>
    !t.isEmpty &&
      (match (analyze_transcript_with_gemini t o.gemini).result with
       | none => false
       | some a => !a.isEmpty)

/-- String `sub` occurs as a contiguous substring of `s`. -/
def strContains (s sub : String) : Prop := ∃ a b : String, s = a ++ sub ++ b

theorem strContains_appL (a s sub : String) (h : strContains s sub) :
    strContains (a ++ s) sub := by
  obtain ⟨x, y, hxy⟩ := h
  exact ⟨a ++ x, y, by rw [hxy, String.append_assoc, String.append_assoc,
    String.append_assoc]⟩

/-- Every prompt `analyze_transcript_with_gemini` passes to
`model.generate_content` is the fixed six-section prompt on its
transcript. -/
theorem sent_prompt_eq (t : String) (o : GeminiOracle) (p : String)
    (hp : p ∈ (analyze_transcript_with_gemini t o).sent) :
    p = gemini_prompt t := by
  rcases o with ⟨k, co, mo, go⟩
  cases co <;> cases mo <;> cases go <;>
    simp_all [analyze_transcript_with_gemini]

/-! ## Claims -/

/-- Concrete capture failure: `recognizer.listen` raises the usual
speech_recognition timeout while every other call would have succeeded. -/
def timeoutOracle : RecordOracle :=
  ⟨Outcome.ok (), Outcome.ok (), Outcome.ok (),
   Outcome.exn "listening timed out while waiting for phrase to start",
   Outcome.ok (), Outcome.ok (), Outcome.ok ()⟩

/-- Claim C1 (code bug): when `record_audio` fails, the Start Recording
handler does NOT restore the session flags.  `recording` was set to `True`
at the top of the handler and is reset only when `record_audio` returns
`True`, so after a capture failure `recording` stays `True` and on the next
script re-execution the Start Recording button (and the Analyze button) is
still disabled, contradicting the claim that the user may retry. -/
theorem start_failure_leaves_recording_set :
    (record_audio audio_path timeoutOracle).result = Outcome.ok false ∧
    (startHandler initState timeoutOracle).1 = ⟨true, false⟩ ∧
    startDisabled (startHandler initState timeoutOracle).1 = true ∧
    analyzeDisabled (startHandler initState timeoutOracle).1 = true := by
  decide

/-- Claim C2: the Analyze Recording button is disabled whenever the
recording flag is set; after a run of the Analyze handler that set the
processed flag, the button is disabled again; and from any state with the
processed flag set, no Analyze click can fire until a new recording
clears it. -/
theorem analyze_gating :
    (∀ s : SessionState, s.recording = true → analyzeDisabled s = true) ∧
    (∀ (s : SessionState) (o : AnalyzeOracle),
        (analyzeHandler s o).state.processed = true →
        analyzeDisabled (analyzeHandler s o).state = true) ∧
    (∀ (s : SessionState) (o : AnalyzeOracle) (s2 : SessionState),
        s.processed = true → ¬ Step s (Event.clickAnalyze o) s2) := by
  refine ⟨?_, ?_, ?_⟩
  · intro s h
    simp [analyzeDisabled, h]
  · intro s o h
    simp [analyzeDisabled, h]
  · intro s o s2 hp hstep
    cases hstep with
    | analyze _ h => simp [analyzeDisabled, hp] at h

/-- An Analyze click in which both stages succeed. -/
def okAnalyzeOracle : AnalyzeOracle :=
  ⟨⟨Outcome.ok (), Outcome.ok ⟨"en", "I have a headache"⟩⟩,
   ⟨some "key", Outcome.ok (), Outcome.ok (), Outcome.ok "Take rest."⟩⟩

/-- Witness for C2 at concrete states: a recording state disables the
Analyze button, a successful analysis leaves it disabled, and no Analyze
click can fire from a processed state. -/
theorem analyze_gating_witness :
    analyzeDisabled ⟨true, false⟩ = true ∧
    analyzeDisabled (analyzeHandler initState okAnalyzeOracle).state = true ∧
    ¬ Step ⟨false, true⟩ (Event.clickAnalyze okAnalyzeOracle) ⟨false, true⟩ :=
  ⟨analyze_gating.1 ⟨true, false⟩ rfl,
   analyze_gating.2.1 initState okAnalyzeOracle (by decide),
   analyze_gating.2.2 ⟨false, true⟩ okAnalyzeOracle ⟨false, true⟩ rfl⟩

/-- Claim C3: every prompt actually passed to `model.generate_content`
contains the transcript verbatim and all six requested section labels. -/
theorem prompt_contains_transcript_and_sections :
    ∀ (t : String) (o : GeminiOracle) (p : String),
      p ∈ (analyze_transcript_with_gemini t o).sent →
      strContains p t ∧ strContains p "Summary" ∧
      strContains p "Symptoms/concerns" ∧
      strContains p "Recommended specialist" ∧
      strContains p "Urgency level" ∧ strContains p "Recommendations" ∧
      strContains p "First-aid advice if urgent" := by
  intro t o p hp
  rw [sent_prompt_eq t o p hp]
  refine ⟨⟨"Analyze this patient transcript:\n",
    "\n\nProvide:\n1. Summary\n2. Symptoms/concerns\n3. Recommended specialist\n4. Urgency level\n5. Recommendations\n6. First-aid advice if urgent",
    rfl⟩, ?_, ?_, ?_, ?_, ?_, ?_⟩ <;>
  · apply strContains_appL ("Analyze this patient transcript:\n" ++ t)
    first
    | exact ⟨"\n\nProvide:\n1. ",
        "\n2. Symptoms/concerns\n3. Recommended specialist\n4. Urgency level\n5. Recommendations\n6. First-aid advice if urgent",
        rfl⟩
    | exact ⟨"\n\nProvide:\n1. Summary\n2. ",
        "\n3. Recommended specialist\n4. Urgency level\n5. Recommendations\n6. First-aid advice if urgent",
        rfl⟩
    | exact ⟨"\n\nProvide:\n1. Summary\n2. Symptoms/concerns\n3. ",
        "\n4. Urgency level\n5. Recommendations\n6. First-aid advice if urgent",
        rfl⟩
    | exact ⟨"\n\nProvide:\n1. Summary\n2. Symptoms/concerns\n3. Recommended specialist\n4. ",
        "\n5. Recommendations\n6. First-aid advice if urgent", rfl⟩
    | exact ⟨"\n\nProvide:\n1. Summary\n2. Symptoms/concerns\n3. Recommended specialist\n4. Urgency level\n5. ",
        "\n6. First-aid advice if urgent", rfl⟩
    | exact ⟨"\n\nProvide:\n1. Summary\n2. Symptoms/concerns\n3. Recommended specialist\n4. Urgency level\n5. Recommendations\n6. ",
        "", rfl⟩

/-- Witness for C3: the prompt sent for a concrete transcript contains it
and the six labels. -/
theorem prompt_contains_witness :
    strContains (gemini_prompt "I feel dizzy") "I feel dizzy" ∧
    strContains (gemini_prompt "I feel dizzy") "Urgency level" :=
  have h := prompt_contains_transcript_and_sections "I feel dizzy"
    okAnalyzeOracle.gemini (gemini_prompt "I feel dizzy")
    (by simp [analyze_transcript_with_gemini, okAnalyzeOracle])
  ⟨h.1, h.2.2.2.2.1⟩

/-- Claim C4: when transcription returns the failure sentinel `None`, the
Analyze handler never invokes `analyze_transcript_with_gemini`, sends no
prompt, displays nothing, and leaves the session state unchanged. -/
theorem no_summarization_without_transcript :
    ∀ (s : SessionState) (o : AnalyzeOracle),
      (transcribe_with_whisper audio_path o.whisper).1 = none →
      (analyzeHandler s o).geminiCalled = false ∧
      (analyzeHandler s o).sentPrompts = [] ∧
      (analyzeHandler s o).displayedTranscript = none ∧
      (analyzeHandler s o).displayedAnalysis = none ∧
      (analyzeHandler s o).state = s := by
  intro s o h
  simp [analyzeHandler, h]

/-- An Analyze click whose Whisper model load raises. -/
def whisperFailOracle : AnalyzeOracle :=
  ⟨⟨Outcome.exn "model file not found", Outcome.ok ⟨"en", "unused"⟩⟩,
   ⟨some "key", Outcome.ok (), Outcome.ok (), Outcome.ok "unused"⟩⟩

/-- Witness for C4 at a concrete failing transcription. -/
theorem no_summarization_without_transcript_witness :
    (analyzeHandler initState whisperFailOracle).geminiCalled = false ∧
    (analyzeHandler initState whisperFailOracle).sentPrompts = [] ∧
    (analyzeHandler initState whisperFailOracle).displayedTranscript = none ∧
    (analyzeHandler initState whisperFailOracle).displayedAnalysis = none ∧
    (analyzeHandler initState whisperFailOracle).state = initState :=
  no_summarization_without_transcript initState whisperFailOracle (by decide)

/-- A Gemini oracle whose remote call returns the empty string. -/
def emptyGeminiOracle : GeminiOracle :=
  ⟨some "key", Outcome.ok (), Outcome.ok (), Outcome.ok ""⟩

/-- An Analyze click in which transcription succeeds and the remote service
returns the empty string. -/
def emptyAnalysisOracle : AnalyzeOracle :=
  ⟨⟨Outcome.ok (), Outcome.ok ⟨"en", "I feel dizzy"⟩⟩, emptyGeminiOracle⟩

/-- Counterexample to C5 as stated: the service returns the string `""`,
`analyze_transcript_with_gemini` returns it verbatim, the prompt was sent,
yet the handler displays no analysis at all (Python truthiness of `""`),
so the displayed analysis does not equal the returned string. -/
theorem empty_analysis_not_displayed :
    (analyze_transcript_with_gemini "I feel dizzy" emptyGeminiOracle).result
      = some "" ∧
    (analyzeHandler initState emptyAnalysisOracle).sentPrompts ≠ [] ∧
    (analyzeHandler initState emptyAnalysisOracle).displayedAnalysis
      ≠ some "" ∧
    (analyzeHandler initState emptyAnalysisOracle).displayedAnalysis
      = none := by
  refine ⟨rfl, ?_, ?_, rfl⟩ <;> decide

/-- Claim C5 (amended): `analyze_transcript_with_gemini` returns
`response.text` unchanged whenever the call returns; anything the handler
displays as the analysis is exactly the string the service returned; and a
non-empty service string that was actually requested is always displayed.
Only the empty string (falsy in Python) is returned verbatim but not
displayed. -/
theorem analysis_displayed_verbatim :
    (∀ (t r : String) (o : GeminiOracle), o.generateO = Outcome.ok r →
        (analyze_transcript_with_gemini t o).sent = [] ∨
        (analyze_transcript_with_gemini t o).result = some r) ∧
    (∀ (s : SessionState) (o : AnalyzeOracle) (a : String),
        (analyzeHandler s o).displayedAnalysis = some a →
        o.gemini.generateO = Outcome.ok a ∧
        UIEvent.write a ∈ (analyzeHandler s o).ui) ∧
    (∀ (s : SessionState) (o : AnalyzeOracle) (r : String),
        o.gemini.generateO = Outcome.ok r → r.isEmpty = false →
        (analyzeHandler s o).sentPrompts ≠ [] →
        (analyzeHandler s o).displayedAnalysis = some r) := by
  refine ⟨?_, ?_, ?_⟩
  · intro t r o hg
    rcases o with ⟨k, co, mo, go⟩
    cases co <;> cases mo <;> cases go <;>
      simp_all [analyze_transcript_with_gemini]
  · intro s o a h
    rcases o with ⟨⟨lo, tc⟩, ⟨k, co, mo, go⟩⟩
    cases lo <;> cases tc <;> cases co <;> cases mo <;> cases go <;>
      simp_all [analyzeHandler, transcribe_with_whisper,
        analyze_transcript_with_gemini] <;>
      split_ifs at h <;> simp_all
  · intro s o r hg he hs
    rcases o with ⟨⟨lo, tc⟩, ⟨k, co, mo, go⟩⟩
    cases lo <;> cases tc <;> cases co <;> cases mo <;> cases go <;>
      simp_all [analyzeHandler, transcribe_with_whisper,
        analyze_transcript_with_gemini] <;>
      split_ifs at hs ⊢ <;> simp_all

/-- Witness for C5 (amended) at a concrete successful run: the service
string is displayed verbatim. -/
theorem analysis_displayed_verbatim_witness :
    (analyze_transcript_with_gemini "I have a headache"
        okAnalyzeOracle.gemini).result = some "Take rest." ∧
    (analyzeHandler initState okAnalyzeOracle).displayedAnalysis
      = some "Take rest." :=
  have h1 := analysis_displayed_verbatim.1 "I have a headache" "Take rest."
    okAnalyzeOracle.gemini rfl
  have h2 := analysis_displayed_verbatim.2.2 initState okAnalyzeOracle
    "Take rest." rfl rfl (by decide)
  ⟨h1.resolve_left (by decide), h2⟩

/-- A capture run whose `sr.Recognizer()` construction itself raises. -/
def recognizerFailOracle : RecordOracle :=
  ⟨Outcome.exn "recognizer unavailable", Outcome.ok (), Outcome.ok (),
   Outcome.ok (), Outcome.ok (), Outcome.ok (), Outcome.ok ()⟩

/-- Counterexample to C6 as stated: `recognizer = sr.Recognizer()` sits on
the line before the `try:` block, so an exception raised there escapes
`record_audio` uncaught — no error widget is shown and no sentinel is
returned. -/
theorem recognizer_exception_propagates :
    (record_audio audio_path recognizerFailOracle).result
      = Outcome.exn "recognizer unavailable" ∧
    (record_audio audio_path recognizerFailOracle).ui = [] := by
  decide

/-- Claim C6 (amended): every exception raised inside the `try` block of a
stage function is caught there, its message is displayed via `st.error`,
and the failure sentinel is returned (`False` / `None` / `None`); in
`record_audio` the `sr.Recognizer()` construction precedes the `try` and is
the one call whose exception would propagate. -/
theorem stage_errors_caught_inside_try :
    (∀ (fp : String) (o : RecordOracle), o.recognizerO = Outcome.ok () →
        (record_audio fp o).result = Outcome.ok true ∨
        ∃ e, (record_audio fp o).result = Outcome.ok false ∧
          UIEvent.error ("Recording error: " ++ e) ∈ (record_audio fp o).ui) ∧
    (∀ (fp : String) (o : WhisperOracle),
        (∃ t, (transcribe_with_whisper fp o).1 = some t) ∨
        ∃ e, (transcribe_with_whisper fp o).1 = none ∧
          UIEvent.error ("Transcription error: " ++ e)
            ∈ (transcribe_with_whisper fp o).2) ∧
    (∀ (t : String) (o : GeminiOracle),
        (∃ a, (analyze_transcript_with_gemini t o).result = some a) ∨
        ∃ e, (analyze_transcript_with_gemini t o).result = none ∧
          UIEvent.error ("Analysis error: " ++ e)
            ∈ (analyze_transcript_with_gemini t o).ui) := by
  refine ⟨?_, ?_, ?_⟩
  · intro fp o h
    rcases o with ⟨ro, mo, ao, lo, wo, fo, xo⟩
    cases ro <;> cases mo <;> cases ao <;> cases lo <;> cases wo <;>
      cases fo <;> cases xo <;> simp_all [record_audio]
  · intro fp o
    rcases o with ⟨lo, tc⟩
    cases lo <;> cases tc <;> simp [transcribe_with_whisper]
  · intro t o
    rcases o with ⟨k, co, mo, go⟩
    cases co <;> cases mo <;> cases go <;>
      simp [analyze_transcript_with_gemini]

/-- Witness for C6 (amended) at concrete failing calls inside each `try`:
the sentinel is returned and the error widget shows the message. -/
theorem stage_errors_caught_witness :
    ((record_audio audio_path timeoutOracle).result = Outcome.ok true ∨
      ∃ e, (record_audio audio_path timeoutOracle).result = Outcome.ok false ∧
        UIEvent.error ("Recording error: " ++ e)
          ∈ (record_audio audio_path timeoutOracle).ui) ∧
    ((∃ t, (transcribe_with_whisper audio_path whisperFailOracle.whisper).1
        = some t) ∨
      ∃ e, (transcribe_with_whisper audio_path whisperFailOracle.whisper).1
          = none ∧
        UIEvent.error ("Transcription error: " ++ e)
          ∈ (transcribe_with_whisper audio_path whisperFailOracle.whisper).2) :=
  ⟨stage_errors_caught_inside_try.1 audio_path timeoutOracle rfl,
   stage_errors_caught_inside_try.2.1 audio_path whisperFailOracle.whisper⟩

/-- Claim C7: a failed `record_audio` invocation completes no export, so
the file at the recording path keeps its previous content; and the export
call is reached only when the microphone was opened, ambient noise
adjusted and listening succeeded. -/
theorem record_failure_leaves_file_untouched :
    ∀ (fp : String) (o : RecordOracle) (init : Option FileWrite),
      ((record_audio fp o).result ≠ Outcome.ok true →
        (record_audio fp o).writes = [] ∧
        fileAfter fp init (record_audio fp o).writes = init) ∧
      ((record_audio fp o).exportAttempted = true →
        o.micO = Outcome.ok () ∧ o.adjustO = Outcome.ok () ∧
        o.listenO = Outcome.ok ()) := by
  intro fp o init
  rcases o with ⟨ro, mo, ao, lo, wo, fo, xo⟩
  cases ro <;> cases mo <;> cases ao <;> cases lo <;> cases wo <;>
    cases fo <;> cases xo <;> simp_all [record_audio, fileAfter]

/-- A capture run in which every external call succeeds. -/
def okRecordOracle : RecordOracle :=
  ⟨Outcome.ok (), Outcome.ok (), Outcome.ok (), Outcome.ok (),
   Outcome.ok (), Outcome.ok (), Outcome.ok ()⟩

/-- Witness for C7: a listen timeout against a pre-existing recording file
leaves that file exactly as it was, and a run that reached export had a
successful listen. -/
theorem record_failure_leaves_file_untouched_witness :
    fileAfter audio_path (some ⟨audio_path, "mp3", "128k"⟩)
      (record_audio audio_path timeoutOracle).writes
      = some ⟨audio_path, "mp3", "128k"⟩ ∧
    okRecordOracle.listenO = Outcome.ok () :=
  have h := record_failure_leaves_file_untouched audio_path timeoutOracle
    (some ⟨audio_path, "mp3", "128k"⟩)
  have h2 := record_failure_leaves_file_untouched audio_path okRecordOracle
    (some ⟨audio_path, "mp3", "128k"⟩)
  ⟨(h.1 (by decide)).2, ((h2.2 (by decide)).2).2⟩

/-- Claim C8: a successful Start Recording run performs exactly one export,
an mp3 at 128k at the fixed path `patient_recording.mp3`, overwriting
whatever was there before, and `record_audio` returned `True` so the
`recording` flag is cleared. -/
theorem record_success_single_mp3_write :
    ∀ (s : SessionState) (o : RecordOracle) (init : Option FileWrite),
      (startHandler s o).2.result = Outcome.ok true →
      (startHandler s o).2.writes = [⟨audio_path, "mp3", "128k"⟩] ∧
      fileAfter audio_path init (startHandler s o).2.writes
        = some ⟨audio_path, "mp3", "128k"⟩ ∧
      (startHandler s o).1 = ⟨false, false⟩ := by
  intro s o init h
  rcases o with ⟨ro, mo, ao, lo, wo, fo, xo⟩
  cases ro <;> cases mo <;> cases ao <;> cases lo <;> cases wo <;>
    cases fo <;> cases xo <;>
    simp_all [startHandler, record_audio, fileAfter, audio_path]

/-- Witness for C8 at the all-successful run, starting from a previous
recording that gets overwritten. -/
theorem record_success_single_mp3_write_witness :
    (startHandler initState okRecordOracle).2.writes
      = [⟨audio_path, "mp3", "128k"⟩] ∧
    fileAfter audio_path (some ⟨audio_path, "mp3", "64k"⟩)
      (startHandler initState okRecordOracle).2.writes
      = some ⟨audio_path, "mp3", "128k"⟩ ∧
    (startHandler initState okRecordOracle).1 = ⟨false, false⟩ :=
  record_success_single_mp3_write initState okRecordOracle
    (some ⟨audio_path, "mp3", "64k"⟩) (by decide)

/-- Claim C9: a transcription that succeeds with the empty string is
treated exactly like a failure by the Analyze handler: no transcript
display, no summarization call, no prompt sent, state (and in particular
the processed flag) unchanged — and no error widget was shown either. -/
theorem empty_transcript_skips_analysis :
    ∀ (s : SessionState) (o : AnalyzeOracle),
      (transcribe_with_whisper audio_path o.whisper).1 = some "" →
      (analyzeHandler s o).geminiCalled = false ∧
      (analyzeHandler s o).sentPrompts = [] ∧
      (analyzeHandler s o).displayedTranscript = none ∧
      (analyzeHandler s o).displayedAnalysis = none ∧
      (analyzeHandler s o).state = s ∧
      ∀ e, UIEvent.error e ∉ (analyzeHandler s o).ui := by
  intro s o h
  rcases o with ⟨⟨lo, tc⟩, g⟩
  cases lo <;> cases tc <;>
    simp_all [analyzeHandler, transcribe_with_whisper, String.isEmpty]

/-- An Analyze click whose transcription succeeds with an empty text. -/
def emptyTranscriptOracle : AnalyzeOracle :=
  ⟨⟨Outcome.ok (), Outcome.ok ⟨"en", ""⟩⟩,
   ⟨some "key", Outcome.ok (), Outcome.ok (), Outcome.ok "unused"⟩⟩

/-- Witness for C9 at a concrete empty-transcript run. -/
theorem empty_transcript_skips_analysis_witness :
    (analyzeHandler initState emptyTranscriptOracle).sentPrompts = [] ∧
    (analyzeHandler initState emptyTranscriptOracle).state = initState :=
  have h := empty_transcript_skips_analysis initState emptyTranscriptOracle
    (by decide)
  ⟨h.2.1, h.2.2.2.2.1⟩

/-- Claim C10: the processed flag after an Analyze run is set exactly when
both stages succeeded with truthy values (otherwise it keeps its prior
value), the recording flag is untouched, and the handler itself performs
no file writes. -/
theorem processed_iff_both_stages :
    ∀ (s : SessionState) (o : AnalyzeOracle),
      (analyzeHandler s o).state.processed
        = (bothStagesSucceed o || s.processed) ∧
      (analyzeHandler s o).state.recording = s.recording ∧
      (analyzeHandler s o).fileWrites = [] := by
  intro s o
  rcases o with ⟨⟨lo, tc⟩, ⟨k, co, mo, go⟩⟩
  cases lo <;> cases tc <;> cases co <;> cases mo <;> cases go <;>
    simp_all [analyzeHandler, bothStagesSucceed, transcribe_with_whisper,
      analyze_transcript_with_gemini] <;>
    split_ifs <;> simp_all
